import Mathlib

/-
Verification development for the navigation core of vts-browser-cpp
(src/browser/src/vts-browser-lib/navigation.cpp).

Shallow embedding conventions:
- C++ doubles are modelled as rationals (ℚ); transcendental library functions
  (cos, sin, tan, sqrt, atan2, degToRad, radToDeg) and the external Convertor
  (SRS conversions, geodesics) are fields of an abstract `World` record, since
  their numeric behaviour is external to the repository.
- The NaN "unset" sentinels of the source (resetOffset, lastPanZShift, sds,
  interpol) are modelled as Option, following the data model of the spec
  (resetOffset: optional scalar; lastHeightSample: optional scalar).
- std::queue of shared_ptr<HeightRequest> is modelled as a List with the front
  at the head; in-place mutation of the pointee becomes replacing the head by
  the updated request value.
- Functions that reach LOGTHROW(fatal, ...) return none (Option result).
-/

namespace VtsNav


/-- Tri-state validity of lazily resolved quantities (Validity enum). -/
inductive Validity where
  | Indeterminate
  | Valid
  | Invalid
deriving DecidableEq, Repr, Inhabited

/-- Navigation type enum (NavigationType). -/
inductive NavigationType where
  | Instant
  | Quick
  | FlyOver
deriving DecidableEq, Repr, Inhabited

/-- Geographic navigation mode enum (NavigationGeographicMode). -/
inductive NavigationGeographicMode where
  | Azimuthal
  | Free
  | Dynamic
deriving DecidableEq, Repr, Inhabited

/-- SRS type enum (vtslibs::registry::Srs::Type). -/
inductive SrsType where
  | projected
  | geographic
  | cartesian
deriving DecidableEq, Repr, Inhabited

/-- Position type (vtslibs::registry::Position::Type). -/
inductive PositionType where
  | objective
  | subjective
deriving DecidableEq, Repr, Inhabited

/-- Height mode (vtslibs::registry::Position::HeightMode). -/
inductive HeightMode where
  | floating
  | fixed
deriving DecidableEq, Repr, Inhabited

/-- A 2-vector of rationals (vec2). -/
structure V2 where
  x : ℚ
  y : ℚ
deriving DecidableEq, Repr, Inhabited

/-- A 3-vector of rationals (vec3). -/
structure V3 where
  x : ℚ
  y : ℚ
  z : ℚ
deriving DecidableEq, Repr, Inhabited

instance : Zero V3 := ⟨⟨0, 0, 0⟩⟩

instance : Add V3 := ⟨fun a b => ⟨a.x + b.x, a.y + b.y, a.z + b.z⟩⟩

instance : Sub V3 := ⟨fun a b => ⟨a.x - b.x, a.y - b.y, a.z - b.z⟩⟩

instance : Neg V3 := ⟨fun a => ⟨-a.x, -a.y, -a.z⟩⟩

instance : SMul ℚ V3 := ⟨fun q a => ⟨q * a.x, q * a.y, q * a.z⟩⟩

/-- Dot product of 3-vectors. -/
def V3.dot (a b : V3) : ℚ := a.x * b.x + a.y * b.y + a.z * b.z

/-- Cross product of 3-vectors. -/
def V3.cross (a b : V3) : V3 :=
  ⟨a.y * b.z - a.z * b.y, a.z * b.x - a.x * b.z, a.x * b.y - a.y * b.x⟩

/-- Drop the z component (vec3to2). -/
def vec3to2 (v : V3) : V2 := ⟨v.x, v.y⟩

/-- Extend a 2-vector by a z component (vec2to3). -/
def vec2to3 (v : V2) (z : ℚ) : V3 := ⟨v.x, v.y, z⟩

/-- Modelled from the spec: the math utility `clamp` (not under src/);
restricts a value to the interval from lo to hi. -/
def clamp (v lo hi : ℚ) : ℚ := max lo (min hi v)

/-- Modelled from the spec: the math utility `modulo` (not under src/);
wraps a into the half-open interval from 0 to m (for positive m). -/
def modulo (a m : ℚ) : ℚ := a - m * (⌊a / m⌋ : ℤ)

/-- Modelled from the spec: the math utility `normalizeAngle` (not under src/);
normalizes an angle in degrees into the half-open interval from 0 to 360. -/
def normalizeAngle (a : ℚ) : ℚ := modulo a 360

/-- Modelled from the spec: the math utility `angularDiff` (not under src/);
the signed shortest angular difference from a to b, in degrees. -/
def angularDiff (a b : ℚ) : ℚ := modulo (b - a + 180) 360 - 180

/-- Modelled from the spec: the vec3 overload of `angularDiff`, componentwise
(used by setRotation). -/
def angularDiff3 (a b : V3) : V3 :=
  ⟨angularDiff a.x b.x, angularDiff a.y b.y, angularDiff a.z b.z⟩

/-- Modelled from the spec: the math utility `interpolate` (not under src/);
linear interpolation between a and b with weight t. -/
def interpolate (a b t : ℚ) : ℚ := a + (b - a) * t

/-- Tile identifier (TileId: lod, x, y). -/
structure TileId where
  lod : Nat
  x : Nat
  y : Nat
deriving DecidableEq, Repr, Inhabited

/-- A node of the traversal tile tree (TraverseNode), with its tri-state
validity, id, surrogate elevation and children. A snapshot of the shared
tree as seen by one tick; the asynchronous loader is external. -/
inductive TraverseNode where
  | node (validity : Validity) (nodeId : TileId) (surrogateValue : ℚ)
         (childs : List TraverseNode)

instance : Inhabited TraverseNode := ⟨.node .Invalid ⟨0, 0, 0⟩ 0 []⟩

/-- Validity of a traverse node. -/
def TraverseNode.validity : TraverseNode → Validity
  | .node v _ _ _ => v

/-- Id of a traverse node. -/
def TraverseNode.nodeId : TraverseNode → TileId
  | .node _ i _ _ => i

/-- Surrogate elevation of a traverse node. -/
def TraverseNode.surrogateValue : TraverseNode → ℚ
  | .node _ _ s _ => s

/-- Children of a traverse node. -/
def TraverseNode.childs : TraverseNode → List TraverseNode
  | .node _ _ _ c => c

/-- The part of the external vtslibs NodeInfo the navigation code reads:
the node id (for the quadtree descent) and the srs tag (for the final
conversion of the sampled height). -/
structure NodeInfo where
  nodeId : TileId
  srs : Nat
deriving DecidableEq, Repr, Inhabited

/-- HeightRequest::CornerRequest: a cursor descending the tile tree toward
one corner node, with an optional memoized surrogate elevation. -/
structure CornerRequest where
  nodeInfo : NodeInfo
  trav : Option TraverseNode
  result : Option ℚ
deriving Inhabited

/-- HeightRequest (navigation.cpp lines 40-122): sds, interpol and
resetOffset are NaN-initialized in the source, modelled as Option. -/
structure HeightRequest where
  corners : List CornerRequest
  nodeInfo : Option NodeInfo
  result : Option ℚ
  navPos : V2
  sds : Option V2
  interpol : Option V2
  resetOffset : Option ℚ
deriving Inhabited

/-- HeightRequest constructor (navigation.cpp lines 116-122): all optional
work fields unset. -/
def HeightRequest.make (navPos : V2) : HeightRequest :=
  ⟨[], none, none, navPos, none, none, none⟩

/-- Input of the motion solver call (navigationSolve arguments, in call
order; the Options argument is captured by the abstract solver itself). -/
structure SolverInput where
  navigationType : NavigationType
  timeDiff : ℚ
  fov : ℚ
  inHorizontalDistance : ℚ
  inVerticalChange : ℚ
  inViewExtent : ℚ
  inViewExtentChange : ℚ
  inRotation : V3
  inRotationChange : V3

/-- Output of the motion solver call (the four out-parameters of
navigationSolve). -/
structure SolverOutput where
  outViewExtent : ℚ
  outHorizontalMove : ℚ
  outVerticalMove : ℚ
  outRotation : V3

/-- The world a tick runs against: the tile-tree snapshot, the external
Convertor and math library functions, the navigation SRS type and
periodicity of the map config, and the motion solver.

The fields validSurrogate (vtslibs GeomExtents::validSurrogate), convert,
navToPhys, physToNav, geoDirect, geoDirectFull, geoInverse, geoArcDist
(Convertor) and cos, sin, tan, sqrt, atan2, degToRad, radToDeg (libm math
on doubles) are external interfaces, hence abstract here.

The field prepare models the corner-preparation step of
HeightRequest::process (navigation.cpp lines 129-173, using
findInfoNavRoot, findInfoSdsSampled and vtslibs NodeInfo extents
geometry): it either fails (the runtime_error catch, yielding Invalid)
or returns the sampled nodeInfo, the sds point, the bilinear weights and
the four prepared corner requests.

The field solve is modelled from the spec: the MotionSolver
(navigationSolver, not under src/) is a free-parameter profile mapping
the solver input to the four outputs. -/
structure World where
  traverseRoot : Option TraverseNode
  validSurrogate : ℚ → Bool
  prepare : V2 → Option (NodeInfo × V2 × V2 × List CornerRequest)
  convert : NodeInfo → V3 → V3
  navToPhys : V3 → V3
  physToNav : V3 → V3
  geoDirect : V3 → ℚ → ℚ → V3
  geoDirectFull : V3 → ℚ → ℚ → ℚ → V3 × ℚ
  geoInverse : V3 → V3 → ℚ × ℚ × ℚ
  geoArcDist : V3 → V3 → ℚ
  cos : ℚ → ℚ
  sin : ℚ → ℚ
  tan : ℚ → ℚ
  sqrt : ℚ → ℚ
  atan2 : ℚ → ℚ → ℚ
  degToRad : ℚ → ℚ
  radToDeg : ℚ → ℚ
  srsType : SrsType
  periodicity : Option (Nat × ℚ)
  solve : SolverInput → SolverOutput

/-- CornerRequest::process descent (navigation.cpp lines 59-103), starting
from an already-set traversal node. The map->traverse(trav, true) call on an
Indeterminate node is a load hint to the asynchronous loader and does not
change the tree snapshot seen by this tick. Returns the validity, the
memoized result (emplaced surrogate, if any) and the final traversal node.
The uint32 lodDiff subtraction is truncated at zero here; the source relies
on the descent staying above the target lod. -/
def cornerDescend (w : World) (target : TileId) :
    TraverseNode → Validity × Option ℚ × TraverseNode
  | .node v id surr childs =>
    match v with
    | .Invalid => (.Invalid, none, .node v id surr childs)
    | .Indeterminate => (.Indeterminate, none, .node v id surr childs)
    | .Valid =>
      if id = target ∨ childs.isEmpty then
        ((if w.validSurrogate surr then .Valid else .Invalid), some surr,
          .node v id surr childs)
      else
        let lodDiff := target.lod - id.lod - 1
        let cid : TileId :=
          ⟨target.lod - lodDiff, target.x >>> lodDiff, target.y >>> lodDiff⟩
        match h : childs.find? (fun c => c.nodeId = cid) with
        | some c => cornerDescend w target c
        | none => (.Invalid, none, .node v id surr childs)
termination_by t => sizeOf t
decreasing_by
  have hm := List.mem_of_find?_eq_some h
  have hs := List.sizeOf_lt_of_mem hm
  simp only [TraverseNode.node.sizeOf_spec]
  omega

/-- CornerRequest::process (navigation.cpp lines 53-104): memoized result
short-circuits; an unset cursor starts at the tree root (Indeterminate when
the root is not yet available); otherwise descend. -/
def CornerRequest.process (w : World) (cr : CornerRequest) :
    Validity × CornerRequest :=
  match cr.result with
  | some r => ((if w.validSurrogate r then .Valid else .Invalid), cr)
  | none =>
    match cr.trav with
    | none =>
      match w.traverseRoot with
      | none => (.Indeterminate, cr)
      | some root =>
        let d := cornerDescend w cr.nodeInfo.nodeId root
        (d.1, { cr with trav := some d.2.2, result := d.2.1 })
    | some t =>
      let d := cornerDescend w cr.nodeInfo.nodeId t
      (d.1, { cr with trav := some d.2.2, result := d.2.1 })

/-- The corner loop of HeightRequest::process (navigation.cpp lines
175-193): process corners in order; the first Invalid returns immediately
(remaining corners untouched, first component none); an Indeterminate
clears the determined flag but the loop continues; otherwise the flag
(second component of some) tells whether all corners were determined. -/
def runCorners (w : World) : List CornerRequest → Bool →
    Option Bool × List CornerRequest
  | [], det => (some det, [])
  | c :: rest, det =>
    let pc := CornerRequest.process w c
    match pc.1 with
    | .Invalid => (none, pc.2 :: rest)
    | .Indeterminate =>
      let r := runCorners w rest false
      (r.1, pc.2 :: r.2)
    | .Valid =>
      let r := runCorners w rest det
      (r.1, pc.2 :: r.2)

/-- The height combination of HeightRequest::process (navigation.cpp lines
195-205): bilinear interpolation of the four corner surrogates followed by
the SRS conversion of the sds point at that height into the navigation SRS,
keeping the z component. -/
def HeightRequest.combinedHeight (w : World) (hr : HeightRequest)
    (cs : List CornerRequest) : ℚ :=
  let c0 := ((cs.getD 0 default).result).getD 0
  let c1 := ((cs.getD 1 default).result).getD 0
  let c2 := ((cs.getD 2 default).result).getD 0
  let c3 := ((cs.getD 3 default).result).getD 0
  let ip := hr.interpol.getD ⟨0, 0⟩
  let height := interpolate (interpolate c2 c3 ip.x) (interpolate c0 c1 ip.x) ip.y
  (w.convert (hr.nodeInfo.getD default) (vec2to3 (hr.sds.getD ⟨0, 0⟩) height)).z

/-- HeightRequest::process (navigation.cpp lines 124-207): a set result
short-circuits Valid; empty corners trigger the corner preparation (a
failure there is Invalid); then the corner loop and, when all corners are
determined and valid, the height combination. -/
def HeightRequest.process (w : World) (hr : HeightRequest) :
    Validity × HeightRequest :=
  match hr.result with
  | some _ => (.Valid, hr)
  | none =>
    let loc : Option HeightRequest :=
      if hr.corners.isEmpty then
        match w.prepare hr.navPos with
        | none => none
        | some (ni, s, ip, cs) =>
          some { hr with nodeInfo := some ni, sds := some s,
                         interpol := some ip, corners := cs }
      else some hr
    match loc with
    | none => (.Invalid, hr)
    | some hr1 =>
      let rc := runCorners w hr1.corners true
      match rc.1 with
      | none => (.Invalid, { hr1 with corners := rc.2 })
      | some false => (.Indeterminate, { hr1 with corners := rc.2 })
      | some true =>
        let h := HeightRequest.combinedHeight w hr1 rc.2
        (.Valid, { hr1 with corners := rc.2, result := some h })

/-- The persistent camera descriptor (vtslibs::registry::Position as read
and written by the navigation code). -/
structure Position where
  position : V3
  orientation : V3
  verticalExtent : ℚ
  verticalFov : ℚ
  heightMode : HeightMode
  type : PositionType
deriving Inhabited

/-- MapImpl::Navigation: the transient animation state owned by the core.
The panZQueue list has its front at the head. -/
structure Navigation where
  changeRotation : V3
  targetPoint : V3
  autoRotation : ℚ
  targetViewExtent : ℚ
  geographicMode : NavigationGeographicMode
  type : NavigationType
  panZQueue : List HeightRequest
  lastPanZShift : Option ℚ
deriving Inhabited

/-- MapImpl::Navigation::Navigation (navigation.cpp lines 34-38): the
constructed state; the queue is empty and lastPanZShift unset. -/
def Navigation.initial : Navigation :=
  ⟨0, 0, 0, 0, .Azimuthal, .Quick, [], none⟩

/-- The options the navigation code reads (MapOptions fields used by
navigation.cpp). -/
structure MapOptions where
  positionViewExtentMin : ℚ
  positionViewExtentMax : ℚ
  navigationLatitudeThreshold : ℚ
  geographicNavMode : NavigationGeographicMode
  navigationType : NavigationType
  cameraSensitivityPan : ℚ
  cameraSensitivityRotate : ℚ
  cameraSensitivityZoom : ℚ
deriving Inhabited

/-- MapImpl::checkPanZQueue (navigation.cpp lines 210-237): drain one step
of the height queue. Indeterminate leaves the request in place (its
in-place progress is the replaced head); Invalid pops silently; Valid
applies the absolute resetOffset or the delta against lastPanZShift to the
target z, records the sample and pops. -/
def checkPanZQueue (w : World) (nav : Navigation) : Navigation :=
  match nav.panZQueue with
  | [] => nav
  | t :: rest =>
    let pr := HeightRequest.process w t
    match pr.1 with
    | .Indeterminate => { nav with panZQueue := pr.2 :: rest }
    | .Invalid => { nav with panZQueue := rest }
    | .Valid =>
      let nh := pr.2.result.getD 0
      let tp := nav.targetPoint
      let tp' :=
        match pr.2.resetOffset with
        | some ro => { tp with z := nh + ro }
        | none =>
          match nav.lastPanZShift with
          | some lps => { tp with z := tp.z + (nh - lps) }
          | none => tp
      { nav with targetPoint := tp', lastPanZShift := some nh,
                 panZQueue := rest }

/-- MapImpl::resetPositionAltitude (navigation.cpp lines 284-294): zero the
target z, forget the last sample, clear the queue and push one absolute
request at the current position. -/
def resetPositionAltitude (pos : Position) (nav : Navigation)
    (resetOffset : ℚ) : Navigation :=
  let r := { HeightRequest.make (vec3to2 pos.position) with
             resetOffset := some resetOffset }
  { nav with targetPoint := { nav.targetPoint with z := 0 },
             lastPanZShift := none,
             panZQueue := [r] }

/-- MapImpl::resetNavigationGeographicMode (navigation.cpp lines 296-302). -/
def resetNavigationGeographicMode (cfg : MapOptions) (nav : Navigation) :
    Navigation :=
  if cfg.geographicNavMode = .Dynamic then
    { nav with geographicMode := .Azimuthal }
  else
    { nav with geographicMode := cfg.geographicNavMode }

/-- The geographic-SRS mode block of MapImpl::updateNavigation
(navigation.cpp lines 441-461): resolve the Dynamic configuration (switch
to Free close to a pole, otherwise leave the mode as it is), copy a
non-Dynamic configuration, then clamp the target latitude in Azimuthal
mode. -/
def tickGeographicMode (cfg : MapOptions) (nav : Navigation) : Navigation :=
  let nav :=
    if cfg.geographicNavMode = .Dynamic then
      if |nav.targetPoint.y| > cfg.navigationLatitudeThreshold - 1 / 100000
      then { nav with geographicMode := .Free }
      else nav
    else { nav with geographicMode := cfg.geographicNavMode }
  if nav.geographicMode = .Azimuthal then
    { nav with targetPoint :=
        { nav.targetPoint with
          y := clamp nav.targetPoint.y (-cfg.navigationLatitudeThreshold)
                 cfg.navigationLatitudeThreshold } }
  else nav

/-- The orientation normalization at the end of MapImpl::updateNavigation
(navigation.cpp lines 579-582): normalize each Euler angle and clamp the
pitch between 270 and 350. -/
def finalizeOrientation (r : V3) : V3 :=
  let r1 : V3 := ⟨normalizeAngle r.x, normalizeAngle r.y, normalizeAngle r.z⟩
  ⟨r1.x, clamp r1.y 270 350, r1.z⟩

/-- The vertical camera adjustment at the end of MapImpl::updateNavigation
(navigation.cpp lines 594-601): push a fresh request when the queue has
room, otherwise replace the tail. -/
def tickEnqueueHeight (p : V3) (q : List HeightRequest) : List HeightRequest :=
  let h := HeightRequest.make (vec3to2 p)
  if q.length < 2 then q ++ [h] else q.dropLast ++ [h]

/-- The state owned by the tick: the committed position of the map config
and the navigation animation state. -/
structure MapState where
  pos : Position
  nav : Navigation
deriving Inhabited

/-- The stateful prelude of MapImpl::updateNavigation (navigation.cpp
lines 422-464): queue drain, floating re-grounding, zoom limit, geographic
mode block and auto-rotation accumulation. -/
def tickPrelude (w : World) (cfg : MapOptions) (st : MapState) :
    Position × Navigation :=
  let nav := checkPanZQueue w st.nav
  let pos := st.pos
  let fl := pos.heightMode = HeightMode.floating
  let pos' := if fl then { pos with heightMode := .fixed } else pos
  let nav := if fl then resetPositionAltitude pos nav pos.position.z else nav
  let nav := { nav with targetViewExtent := clamp nav.targetViewExtent cfg.positionViewExtentMin cfg.positionViewExtentMax }
  let nav :=
    if w.srsType = .geographic then tickGeographicMode cfg nav else nav
  let nav := { nav with changeRotation := { nav.changeRotation with x := nav.changeRotation.x + nav.autoRotation } }
  (pos', nav)

/-- The motion part of MapImpl::updateNavigation (navigation.cpp lines
466-577): solver inputs, the solver call, vertical and horizontal motion
and periodicity, for the position and orientation p and r read at the top
of the tick. -/
def tickMotion (w : World) (cfg : MapOptions) (pos : Position)
    (nav : Navigation) (p r : V3) :
    Option (Position × Navigation × V3 × V3) :=
  let inp : Option (ℚ × ℚ × ℚ) :=
    match w.srsType with
    | .cartesian => none
    | .geographic =>
      let gi := w.geoInverse p nav.targetPoint
      some (gi.1, gi.2.1, gi.2.2)
    | .projected =>
      some (w.sqrt ((nav.targetPoint.x - p.x) * (nav.targetPoint.x - p.x)
              + (nav.targetPoint.y - p.y) * (nav.targetPoint.y - p.y)),
            0, 0)
  match inp with
  | none => none
  | some (horizontal1, azi1, azi2) =>
      let vertical1 := nav.targetPoint.z - p.z
      let so := w.solve
        { navigationType := nav.type
          timeDiff := 1 / 60
          fov := pos.verticalFov
          inHorizontalDistance := horizontal1
          inVerticalChange := vertical1
          inViewExtent := pos.verticalExtent
          inViewExtentChange := nav.targetViewExtent - pos.verticalExtent
          inRotation := r
          inRotationChange := nav.changeRotation }
      let pos := { pos with verticalExtent := so.outViewExtent }
      let p := { p with z := p.z + so.outVerticalMove }
      let nav := { nav with changeRotation :=
        nav.changeRotation - (so.outRotation - r) }
      let r := so.outRotation
      let hmove : Option (V3 × V3) :=
        if horizontal1 > 0 then
          match w.srsType with
          | .projected =>
            some (p + (so.outHorizontalMove / horizontal1) •
                    (nav.targetPoint - p), r)
          | .geographic =>
            match nav.geographicMode with
            | .Free =>
              let gd := w.geoDirectFull p so.outHorizontalMove azi1 azi2
              some (gd.1, { r with x := r.x + (gd.2 - azi1) })
            | .Azimuthal =>
              some (⟨p.x + angularDiff p.x nav.targetPoint.x
                        * (so.outHorizontalMove / horizontal1),
                     p.y + angularDiff p.y nav.targetPoint.y
                        * (so.outHorizontalMove / horizontal1),
                     p.z⟩, r)
            | .Dynamic => none
          | .cartesian => none
        else some (p, r)
      match hmove with
      | none => none
      | some (p1, r1) =>
        let pp := p1
        let p2 :=
          match w.srsType with
          | .projected =>
            match w.periodicity with
            | some (axis, period) =>
              if axis = 0 then
                { p1 with x := modulo (p1.x + period * (1/2)) period
                               - period * (1/2) }
              else
                { p1 with y := modulo (p1.y + period * (1/2)) period
                               - period * (1/2) }
            | none => p1
          | .geographic => { p1 with x := modulo (p1.x + 180) 360 - 180 }
          | .cartesian => p1
        let nav := { nav with targetPoint := nav.targetPoint + (p2 - pp) }
        some (pos, nav, p2, r1)

/-- MapImpl::updateNavigation up to the commit (navigation.cpp lines
422-577): the prelude followed by the motion part on the position and
orientation read at the top of the tick. Returns the updated position and
navigation state together with the moved point p and the pre-normalization
orientation r; none models the LOGTHROW(fatal) paths (cartesian navigation
SRS, Dynamic mode reaching the horizontal move). The unused azimuth
placeholders of the projected branch (NaN in the source) are 0 here. -/
def tickMiddle (w : World) (cfg : MapOptions) (st : MapState) :
    Option (Position × Navigation × V3 × V3) :=
  let pr := tickPrelude w cfg st
  tickMotion w cfg pr.1 pr.2 st.pos.position st.pos.orientation

/-- MapImpl::updateNavigation (navigation.cpp lines 411-606): the middle of
the tick followed by the orientation normalization and pitch clamp, the
vertical camera adjustment enqueue and the commit of position and
orientation (lines 579-605). -/
def updateNavigation (w : World) (cfg : MapOptions) (st : MapState) :
    Option MapState :=
  (tickMiddle w cfg st).map (fun q =>
    let pos := q.1
    let nav := q.2.1
    let p := q.2.2.1
    let r := finalizeOrientation q.2.2.2
    let nav := { nav with panZQueue := tickEnqueueHeight p nav.panZQueue }
    { pos := { pos with position := p, orientation := r }, nav := nav })

/-- MapImpl::setPoint (navigation.cpp lines 696-707). -/
def setPoint (nav : Navigation) (point : V3) (type : NavigationType) :
    Navigation :=
  let nav := { nav with targetPoint := point, autoRotation := 0,
                        type := type }
  if nav.type = .Instant then
    { nav with lastPanZShift := none, panZQueue := [] }
  else nav

/-- MapImpl::setRotation (navigation.cpp lines 709-715). -/
def setRotation (pos : Position) (nav : Navigation) (euler : V3)
    (type : NavigationType) : Navigation :=
  { nav with changeRotation := angularDiff3 pos.orientation euler,
             autoRotation := 0, type := type }

/-- MapImpl::setViewExtent (navigation.cpp lines 717-722). -/
def setViewExtent (nav : Navigation) (viewExtent : ℚ)
    (type : NavigationType) : Navigation :=
  { nav with targetViewExtent := viewExtent, autoRotation := 0,
             type := type }

/-- MapImpl::rotate (navigation.cpp lines 678-686): accumulate the weighted
rotation change; a Dynamic configuration forces the Free mode; clear the
auto rotation and take the configured navigation type. -/
def rotate (cfg : MapOptions) (nav : Navigation) (value : V3) : Navigation :=
  let dr : V3 :=
    ⟨value.x * ((2/10) * cfg.cameraSensitivityRotate),
     value.y * (-(1/10) * cfg.cameraSensitivityRotate),
     value.z * ((2/10) * cfg.cameraSensitivityRotate)⟩
  let nav := { nav with changeRotation := nav.changeRotation + dr }
  let nav :=
    if cfg.geographicNavMode = .Dynamic then
      { nav with geographicMode := .Free }
    else nav
  { nav with autoRotation := 0, type := cfg.navigationType }

/-- Modelled from the spec: the math utility `rotationMatrix` (not under
src/) as a standard rotation about coordinate axis 0, 1 or 2 by an angle in
degrees, through the abstract cos and sin. -/
def rotationMatrix (w : World) (axis : Nat) (angleDeg : ℚ) : V3 × V3 × V3 :=
  let c := w.cos (w.degToRad angleDeg)
  let s := w.sin (w.degToRad angleDeg)
  match axis with
  | 0 => (⟨1, 0, 0⟩, ⟨0, c, -s⟩, ⟨0, s, c⟩)
  | 1 => (⟨c, 0, s⟩, ⟨0, 1, 0⟩, ⟨-s, 0, c⟩)
  | _ => (⟨c, -s, 0⟩, ⟨s, c, 0⟩, ⟨0, 0, 1⟩)

/-- Application of a row-triple matrix to a vector. -/
def mulVec (m : V3 × V3 × V3) (v : V3) : V3 :=
  ⟨V3.dot m.1 v, V3.dot m.2.1 v, V3.dot m.2.2 v⟩

/-- Product of two row-triple matrices. -/
def matMul (a b : V3 × V3 × V3) : V3 × V3 × V3 :=
  let c0 : V3 := ⟨b.1.x, b.2.1.x, b.2.2.x⟩
  let c1 : V3 := ⟨b.1.y, b.2.1.y, b.2.2.y⟩
  let c2 : V3 := ⟨b.1.z, b.2.1.z, b.2.2.z⟩
  (⟨V3.dot a.1 c0, V3.dot a.1 c1, V3.dot a.1 c2⟩,
   ⟨V3.dot a.2.1 c0, V3.dot a.2.1 c1, V3.dot a.2.1 c2⟩,
   ⟨V3.dot a.2.2 c0, V3.dot a.2.2 c1, V3.dot a.2.2 c2⟩)

/-- Modelled from the spec: the math utility `normalize` (not under src/);
division by the length through the abstract sqrt. -/
def normalize (w : World) (v : V3) : V3 :=
  let l := w.sqrt (V3.dot v v)
  ⟨v.x / l, v.y / l, v.z / l⟩

/-- Application of the matrix with columns n, e, d to a vector (the Eigen
comma-initialized NED basis matrix of the geographic branch). -/
def mulColumns (n e d v : V3) : V3 :=
  (v.x • n) + (v.y • e) + (v.z • d)

/-- The camera move vector of MapImpl::pan (navigation.cpp lines 610-640):
pole slowdown in geographic Azimuthal mode, zoom-dependent speed,
sensitivity weights, the Free-mode azimuth correction and the rotation of
the move by the yaw. -/
def panMove (w : World) (cfg : MapOptions) (pos : Position)
    (nav : Navigation) (value : V3) : V3 :=
  let h : ℚ :=
    if w.srsType = .geographic ∧ nav.geographicMode = .Azimuthal then
      w.cos (pos.position.y * (314159 / 100000) / 180)
    else 1
  let v := pos.verticalExtent / 800
  let move : V3 :=
    ⟨value.x * (-2 * v * h * cfg.cameraSensitivityPan),
     value.y * (2 * v * cfg.cameraSensitivityPan),
     value.z * (2 * cfg.cameraSensitivityPan)⟩
  let azi := pos.orientation.x
  let azi :=
    if w.srsType = .geographic ∧ nav.geographicMode = .Free then
      let gi := w.geoInverse pos.position nav.targetPoint
      azi + (gi.2.2 - gi.2.1)
    else azi
  mulVec (rotationMatrix w 2 (-azi)) move

/-- The destination point computed by the geographic branch of
MapImpl::pan (navigation.cpp lines 650-654) from the move vector. -/
def panDestination (w : World) (nav : Navigation) (move : V3) : V3 :=
  let ang1 := w.radToDeg (w.atan2 move.x move.y)
  let dist := w.sqrt (move.x * move.x + move.y * move.y)
  let p1 := w.geoDirect nav.targetPoint dist ang1
  { p1 with z := p1.z + move.z }

/-- MapImpl::pan (navigation.cpp lines 608-676): apply the move to the
target point (directly in projected SRS; through the geodesic destination
in geographic SRS, where a too rapid direction change leaves the target
unchanged), then clear the auto rotation and take the configured
navigation type; none models the LOGTHROW(fatal) paths. -/
def pan (w : World) (cfg : MapOptions) (pos : Position) (nav : Navigation)
    (value : V3) : Option Navigation :=
  let move := panMove w cfg pos nav value
  match w.srsType with
  | .projected =>
    some { nav with targetPoint := nav.targetPoint + move,
                    autoRotation := 0, type := cfg.navigationType }
  | .geographic =>
    let p := panDestination w nav move
    match nav.geographicMode with
    | .Azimuthal =>
      let nav :=
        if |angularDiff pos.position.x p.x| < 150 then
          { nav with targetPoint := p }
        else nav
      some { nav with autoRotation := 0, type := cfg.navigationType }
    | .Free =>
      let nav :=
        if w.geoArcDist pos.position p < 150 then
          { nav with targetPoint := p }
        else nav
      some { nav with autoRotation := 0, type := cfg.navigationType }
    | .Dynamic => none
  | .cartesian => none

/-- The destination point a geographic pan computes for given inputs (the
composition of the move computation and the geodesic destination). -/
def panDestinationOf (w : World) (cfg : MapOptions) (pos : Position)
    (nav : Navigation) (value : V3) : V3 :=
  panDestination w nav (panMove w cfg pos nav value)

/-- MapImpl::positionObjectiveDistance (navigation.cpp lines 388-393). -/
def positionObjectiveDistance (w : World) (pos : Position) : ℚ :=
  pos.verticalExtent * (1/2) / w.tan (w.degToRad (pos.verticalFov * (1/2)))

/-- MapImpl::positionToCamera (navigation.cpp lines 316-386): camera-space
dir and up rotated by the Euler angles (yaw sign flipped in the
non-projected SRS), then transformed to the physical SRS: in the projected
SRS by axis swap, z inversion, translation by the center and conversion;
in the geographic SRS through the North-East-Down basis built from two
100-unit geodesic probes; cartesian is the LOGTHROW(fatal) path. -/
def positionToCamera (w : World) (pos : Position) :
    Option (V3 × V3 × V3) :=
  let rot := pos.orientation
  let center := pos.position
  let dir0 : V3 := ⟨1, 0, 0⟩
  let up0 : V3 := ⟨0, 0, -1⟩
  let yaw := if w.srsType = .projected then rot.x else -rot.x
  let tmp := matMul (rotationMatrix w 2 yaw)
    (matMul (rotationMatrix w 1 (-rot.y)) (rotationMatrix w 0 (-rot.z)))
  let dir := mulVec tmp dir0
  let up := mulVec tmp up0
  match w.srsType with
  | .projected =>
    let dir : V3 := ⟨dir.y, dir.x, -dir.z⟩
    let up : V3 := ⟨up.y, up.x, -up.z⟩
    let dir := dir + center
    let up := up + center
    let centerP := w.navToPhys center
    let dirP := w.navToPhys dir
    let upP := w.navToPhys up
    some (centerP, normalize w (dirP - centerP), normalize w (upP - centerP))
  | .geographic =>
    let n2 := w.geoDirect center 100 0
    let e2 := w.geoDirect center 100 90
    let centerP := w.navToPhys center
    let n := normalize w (w.navToPhys n2 - centerP)
    let e := normalize w (w.navToPhys e2 - centerP)
    let d := normalize w (V3.cross n e)
    let e := normalize w (V3.cross n d)
    some (centerP, normalize w (mulColumns n e d dir),
          normalize w (mulColumns n e d up))
  | .cartesian => none

/-- MapImpl::convertPositionSubjObj (navigation.cpp lines 304-314):
translate the position along the view direction by the objective distance
(toward the camera when the position is objective) and convert back to the
navigation SRS. -/
def convertPositionSubjObj (w : World) (pos : Position) : Option Position :=
  match positionToCamera w pos with
  | none => none
  | some (center, dir, _) =>
    let dist0 := positionObjectiveDistance w pos
    let dist := if pos.type = .objective then -dist0 else dist0
    let center := center + dist • dir
    some { pos with position := w.physToNav center }

/-- Modelled from the spec: the host toggles pos.type between subjective
and objective around the convertPositionSubjObj call (the switching of the
claim); the navigation code itself never writes pos.type. -/
def togglePositionType (pos : Position) : Position :=
  { pos with type := match pos.type with
    | .objective => .subjective
    | .subjective => .objective }

/-- The camera-space view direction of the projected branch of
positionToCamera before translation and conversion: the rotated unit x
vector with the axes swapped and z inverted. -/
def projDirCam (w : World) (rot : V3) : V3 :=
  let tmp := matMul (rotationMatrix w 2 rot.x)
    (matMul (rotationMatrix w 1 (-rot.y)) (rotationMatrix w 0 (-rot.z)))
  let dir := mulVec tmp ⟨1, 0, 0⟩
  ⟨dir.y, dir.x, -dir.z⟩

/-- A concrete world for the closed tick evaluations: projected SRS with
identity conversions, zero external math functions, an empty tile tree and
a solver that keeps the extent and orientation and moves nothing. -/
def wEx : World where
  traverseRoot := none
  validSurrogate := fun q => decide (q ≠ 0)
  prepare := fun _ => none
  convert := fun _ v => v
  navToPhys := id
  physToNav := id
  geoDirect := fun p _ _ => p
  geoDirectFull := fun p _ _ a2 => (p, a2)
  geoInverse := fun _ _ => (0, 0, 0)
  geoArcDist := fun _ _ => 0
  cos := fun _ => 0
  sin := fun _ => 0
  tan := fun _ => 0
  sqrt := fun _ => 0
  atan2 := fun _ _ => 0
  degToRad := fun q => q
  radToDeg := fun q => q
  srsType := .projected
  periodicity := none
  solve := fun i => ⟨i.inViewExtent, 0, 0, i.inRotation⟩

/-- A concrete options record for the closed evaluations. -/
def cfgEx : MapOptions where
  positionViewExtentMin := 1
  positionViewExtentMax := 100
  navigationLatitudeThreshold := 80
  geographicNavMode := .Azimuthal
  navigationType := .Quick
  cameraSensitivityPan := 1
  cameraSensitivityRotate := 1
  cameraSensitivityZoom := 1

/-- A concrete start state for the closed tick evaluations. -/
def stEx : MapState where
  pos :=
    { position := ⟨1, 2, 3⟩
      orientation := ⟨10, 365, -20⟩
      verticalExtent := 50
      verticalFov := 45
      heightMode := .fixed
      type := .objective }
  nav := { Navigation.initial with targetPoint := ⟨1, 2, 3⟩ }

/-- The state the concrete tick produces. -/
def stEx' : MapState := (updateNavigation wEx cfgEx stEx).getD default

/-- A concrete options record with the Dynamic geographic mode, for the C3
refutation. -/
def cfgC3 : MapOptions where
  positionViewExtentMin := 1
  positionViewExtentMax := 100
  navigationLatitudeThreshold := 80
  geographicNavMode := .Dynamic
  navigationType := .Quick
  cameraSensitivityPan := 1
  cameraSensitivityRotate := 1
  cameraSensitivityZoom := 1

/-- A corner request whose surrogate is already memoized; it resolves Valid
immediately. -/
def crEx : CornerRequest :=
  { nodeInfo := ⟨⟨0, 0, 0⟩, 0⟩, trav := none, result := some 7 }

/-- An absolute height request with all four corners already resolved. -/
def hrEx : HeightRequest :=
  { corners := [crEx, crEx, crEx, crEx]
    nodeInfo := some ⟨⟨0, 0, 0⟩, 0⟩
    result := none
    navPos := ⟨0, 0⟩
    sds := some ⟨0, 0⟩
    interpol := some ⟨0, 0⟩
    resetOffset := some 1 }

/-- The processed form of the absolute example request. -/
def hrEx' : HeightRequest := (HeightRequest.process wEx hrEx).2

/-- The height the absolute example request samples. -/
def nhEx : ℚ := hrEx'.result.getD 0

/-- A navigation state whose height queue holds the absolute example
request. -/
def navC2 : Navigation := { Navigation.initial with panZQueue := [hrEx] }

/-- The relative variant of the example request (no resetOffset). -/
def hrRel : HeightRequest := { hrEx with resetOffset := none }

/-- The processed form of the relative example request. -/
def hrRel' : HeightRequest := (HeightRequest.process wEx hrRel).2

/-- The height the relative example request samples. -/
def nhRel : ℚ := hrRel'.result.getD 0

/-- A navigation state whose height queue holds the relative example
request and whose last sample is unset. -/
def navC9 : Navigation := { Navigation.initial with panZQueue := [hrRel] }

/-- A concrete geographic world where the pan destination sits at an
angular difference of exactly 150 from the current position. -/
def wP : World :=
  { wEx with
    srsType := .geographic
    cos := fun _ => 1
    sqrt := fun _ => 2
    geoDirect := fun _ _ _ => ⟨150, 0, 0⟩ }

/-- The options used by the boundary pan. -/
def cfgP : MapOptions := cfgEx

/-- The position at longitude 0 used by the boundary pan. -/
def posP : Position :=
  { position := ⟨0, 10, 0⟩
    orientation := ⟨0, 0, 0⟩
    verticalExtent := 800
    verticalFov := 45
    heightMode := .fixed
    type := .objective }

/-- The navigation state (Azimuthal mode, target at the origin) used by the
boundary pan. -/
def navP : Navigation := Navigation.initial

/-- A concrete geographic world with identity conversions, unit geodesic
probes whose north direction flips past latitude 1, and exact unit math
functions. -/
def wG : World :=
  { wEx with
    srsType := .geographic
    cos := fun q => if q = 0 then 1 else 0
    sin := fun _ => 0
    tan := fun _ => 1
    sqrt := fun _ => 1
    geoDirect := fun c _ azi =>
      if azi = 0 then (if c.y < 1 then c + ⟨0, 1, 0⟩ else c + ⟨1, 0, 0⟩)
      else c + ⟨0, 0, 1⟩ }

/-- A subjective position at the origin used for the C8 refutation. -/
def posG : Position :=
  { position := ⟨0, 0, 0⟩
    orientation := ⟨0, 0, 0⟩
    verticalExtent := 2
    verticalFov := 90
    heightMode := .fixed
    type := .subjective }

/-- The position after the first subjective-objective conversion. -/
def posG1 : Position := (convertPositionSubjObj wG posG).getD posG

/-- The position after the second conversion, with the type toggled by the
host in between. -/
def posG2 : Position :=
  (convertPositionSubjObj wG (togglePositionType posG1)).getD posG

/-- The projected example position after one conversion. -/
def posW1 : Position := (convertPositionSubjObj wEx stEx.pos).getD stEx.pos

/-- The projected example position after the second conversion, with the
type toggled in between. -/
def posW2 : Position :=
  (convertPositionSubjObj wEx (togglePositionType posW1)).getD stEx.pos

theorem V3.add_def (a b : V3) : a + b = ⟨a.x + b.x, a.y + b.y, a.z + b.z⟩ := rfl

theorem V3.sub_def (a b : V3) : a - b = ⟨a.x - b.x, a.y - b.y, a.z - b.z⟩ := rfl

theorem V3.smul_def (q : ℚ) (a : V3) : q • a = ⟨q * a.x, q * a.y, q * a.z⟩ := rfl

theorem V3.ext (a b : V3) (hx : a.x = b.x) (hy : a.y = b.y)
    (hz : a.z = b.z) : a = b := by
  cases a
  cases b
  simp_all

theorem V3.add_x (a b : V3) : (a + b).x = a.x + b.x := rfl

theorem V3.add_y (a b : V3) : (a + b).y = a.y + b.y := rfl

theorem V3.add_z (a b : V3) : (a + b).z = a.z + b.z := rfl

theorem V3.sub_x (a b : V3) : (a - b).x = a.x - b.x := rfl

theorem V3.sub_y (a b : V3) : (a - b).y = a.y - b.y := rfl

theorem V3.sub_z (a b : V3) : (a - b).z = a.z - b.z := rfl

theorem V3.smul_x (q : ℚ) (a : V3) : (q • a).x = q * a.x := rfl

theorem V3.smul_y (q : ℚ) (a : V3) : (q • a).y = q * a.y := rfl

theorem V3.smul_z (q : ℚ) (a : V3) : (q • a).z = q * a.z := rfl

theorem V3.zero_x : (0 : V3).x = 0 := rfl

theorem V3.zero_y : (0 : V3).y = 0 := rfl

theorem V3.zero_z : (0 : V3).z = 0 := rfl

theorem V3.add_comm (a b : V3) : a + b = b + a := by
  apply V3.ext <;> simp only [V3.add_x, V3.add_y, V3.add_z] <;> ring

theorem V3.add_sub_cancel_left (a b : V3) : a + b - a = b := by
  apply V3.ext <;>
    simp only [V3.add_x, V3.add_y, V3.add_z, V3.sub_x, V3.sub_y, V3.sub_z] <;>
    ring

/-- Cancellation of a translation step and its inverse. -/
theorem V3.add_smul_cancel (c n : V3) (q : ℚ) :
    c + q • n + (-q) • n = c := by
  apply V3.ext <;>
    simp only [V3.add_x, V3.add_y, V3.add_z, V3.smul_x, V3.smul_y,
      V3.smul_z] <;> ring

/-- Cancellation of a translation step and its inverse, negative first. -/
theorem V3.add_neg_smul_cancel (c n : V3) (q : ℚ) :
    c + (-q) • n + q • n = c := by
  apply V3.ext <;>
    simp only [V3.add_x, V3.add_y, V3.add_z, V3.smul_x, V3.smul_y,
      V3.smul_z] <;> ring

/-- The normalized angle lies in the half-open interval from 0 to 360. -/
theorem normalizeAngle_bounds (a : ℚ) :
    0 ≤ normalizeAngle a ∧ normalizeAngle a < 360 := by
  unfold normalizeAngle modulo
  have h1 : ((⌊a / 360⌋ : ℤ) : ℚ) ≤ a / 360 := Int.floor_le _
  have h2 : a / 360 < (⌊a / 360⌋ : ℤ) + 1 := Int.lt_floor_add_one _
  have e : 360 * (a / 360) = a := by ring
  constructor <;> nlinarith

/-- Clamping into a nonempty interval lands in the interval. -/
theorem clamp_bounds (v lo hi : ℚ) (h : lo ≤ hi) :
    lo ≤ clamp v lo hi ∧ clamp v lo hi ≤ hi := by
  unfold clamp
  exact ⟨le_max_left _ _, max_le h (min_le_left _ _)⟩

/-- The finalized orientation is componentwise normalized and its pitch is
clamped. -/
theorem finalizeOrientation_bounds (r : V3) :
    (0 ≤ (finalizeOrientation r).x ∧ (finalizeOrientation r).x < 360) ∧
    (0 ≤ (finalizeOrientation r).y ∧ (finalizeOrientation r).y < 360) ∧
    (0 ≤ (finalizeOrientation r).z ∧ (finalizeOrientation r).z < 360) ∧
    (270 ≤ (finalizeOrientation r).y ∧ (finalizeOrientation r).y ≤ 350) := by
  unfold finalizeOrientation
  have hx := normalizeAngle_bounds r.x
  have hz := normalizeAngle_bounds r.z
  have hy := clamp_bounds (normalizeAngle r.y) 270 350 (by norm_num)
  refine ⟨⟨hx.1, hx.2⟩, ⟨?_, ?_⟩, ⟨hz.1, hz.2⟩, hy.1, hy.2⟩
  · exact le_trans (by norm_num) hy.1
  · exact lt_of_le_of_lt hy.2 (by norm_num)

/-- C4: after every completed tick, each of the three orientation
components of the committed Position lies in the half-open interval from 0
to 360 and the pitch component lies between 270 and 350. -/
theorem C4_tick_orientation_invariant (w : World) (cfg : MapOptions)
    (st st' : MapState) (h : updateNavigation w cfg st = some st') :
    (0 ≤ st'.pos.orientation.x ∧ st'.pos.orientation.x < 360) ∧
    (0 ≤ st'.pos.orientation.y ∧ st'.pos.orientation.y < 360) ∧
    (0 ≤ st'.pos.orientation.z ∧ st'.pos.orientation.z < 360) ∧
    (270 ≤ st'.pos.orientation.y ∧ st'.pos.orientation.y ≤ 350) := by
  unfold updateNavigation at h
  rw [Option.map_eq_some'] at h
  obtain ⟨q, _, hb⟩ := h
  have : st'.pos.orientation = finalizeOrientation q.2.2.2 := by
    rw [← hb]
  rw [this]
  exact finalizeOrientation_bounds _

theorem C4_tick_orientation_invariant_witness :
    (0 ≤ stEx'.pos.orientation.x ∧ stEx'.pos.orientation.x < 360) ∧
    (0 ≤ stEx'.pos.orientation.y ∧ stEx'.pos.orientation.y < 360) ∧
    (0 ≤ stEx'.pos.orientation.z ∧ stEx'.pos.orientation.z < 360) ∧
    (270 ≤ stEx'.pos.orientation.y ∧ stEx'.pos.orientation.y ≤ 350) :=
  C4_tick_orientation_invariant wEx cfgEx stEx stEx' rfl

/-- C7: setPoint with the Instant type sets the target point and the type,
clears the last height sample and empties the height queue; with any other
type it sets the target point and the type and leaves the sample and the
queue untouched. -/
theorem C7_setPoint (nav : Navigation) (p : V3) (ty : NavigationType) :
    (setPoint nav p ty).targetPoint = p ∧
    (setPoint nav p ty).type = ty ∧
    (ty = .Instant →
      (setPoint nav p ty).lastPanZShift = none ∧
      (setPoint nav p ty).panZQueue = []) ∧
    (ty ≠ .Instant →
      (setPoint nav p ty).lastPanZShift = nav.lastPanZShift ∧
      (setPoint nav p ty).panZQueue = nav.panZQueue) := by
  cases ty <;> simp [setPoint]

theorem C7_setPoint_witness :
    (setPoint Navigation.initial ⟨4, 5, 6⟩ .Instant).targetPoint = ⟨4, 5, 6⟩ ∧
    (setPoint Navigation.initial ⟨4, 5, 6⟩ .Instant).type = .Instant ∧
    (NavigationType.Instant = .Instant →
      (setPoint Navigation.initial ⟨4, 5, 6⟩ .Instant).lastPanZShift = none ∧
      (setPoint Navigation.initial ⟨4, 5, 6⟩ .Instant).panZQueue = []) ∧
    (NavigationType.Instant ≠ .Instant →
      (setPoint Navigation.initial ⟨4, 5, 6⟩ .Instant).lastPanZShift
        = Navigation.initial.lastPanZShift ∧
      (setPoint Navigation.initial ⟨4, 5, 6⟩ .Instant).panZQueue
        = Navigation.initial.panZQueue) :=
  C7_setPoint Navigation.initial ⟨4, 5, 6⟩ .Instant

/-- C10: setPoint, setRotation and setViewExtent each set the auto rotation
velocity to zero, for every argument value and navigation type. -/
theorem C10_setters_clear_autoRotation (pos : Position) (nav : Navigation)
    (p euler : V3) (e : ℚ) (ty : NavigationType) :
    (setPoint nav p ty).autoRotation = 0 ∧
    (setRotation pos nav euler ty).autoRotation = 0 ∧
    (setViewExtent nav e ty).autoRotation = 0 := by
  refine ⟨?_, rfl, rfl⟩
  cases ty <;> rfl

/-- The resolved geographic mode after the tick-start block, as a function
of the configured mode, the threshold test and the incoming mode. -/
theorem tickGeographicMode_mode (cfg : MapOptions) (nav : Navigation) :
    (tickGeographicMode cfg nav).geographicMode =
      if cfg.geographicNavMode = .Dynamic then
        (if |nav.targetPoint.y| > cfg.navigationLatitudeThreshold - 1 / 100000
         then .Free else nav.geographicMode)
      else cfg.geographicNavMode := by
  simp only [tickGeographicMode]
  split_ifs <;> simp_all

/-- C3 counterexample: with the configured mode Dynamic, a rotate gesture
puts the resolved mode at Free; a following tick whose target latitude is
far below the threshold leaves the resolved mode Free, not Azimuthal as the
claim states. -/
theorem C3_counterexample :
    cfgC3.geographicNavMode = NavigationGeographicMode.Dynamic ∧
    ¬(|(rotate cfgC3 Navigation.initial ⟨1, 1, 1⟩).targetPoint.y| >
        cfgC3.navigationLatitudeThreshold - 1 / 100000) ∧
    (tickGeographicMode cfgC3
        (rotate cfgC3 Navigation.initial ⟨1, 1, 1⟩)).geographicMode
      = NavigationGeographicMode.Free ∧
    NavigationGeographicMode.Free ≠ NavigationGeographicMode.Azimuthal := by
  have h1 : (rotate cfgC3 Navigation.initial ⟨1, 1, 1⟩).targetPoint.y = 0 :=
    rfl
  have h2 : (rotate cfgC3 Navigation.initial ⟨1, 1, 1⟩).geographicMode
      = NavigationGeographicMode.Free := rfl
  have hcond : ¬(|(rotate cfgC3 Navigation.initial ⟨1, 1, 1⟩).targetPoint.y| >
      cfgC3.navigationLatitudeThreshold - 1 / 100000) := by
    rw [h1]
    norm_num [cfgC3]
  refine ⟨rfl, hcond, ?_, by simp⟩
  rw [tickGeographicMode_mode,
      if_pos (show cfgC3.geographicNavMode = .Dynamic from rfl),
      if_neg hcond, h2]

/-- C3 amended: at tick start with a geographic navigation SRS, a Dynamic
configuration sets the resolved mode to Free when the target latitude
magnitude exceeds the threshold minus 1e-5 and otherwise leaves the mode
unchanged (it is not reset to Azimuthal); a non-Dynamic configuration is
copied; the resolved mode is never Dynamic provided the incoming mode is
not Dynamic. -/
theorem C3_amended (cfg : MapOptions) (nav : Navigation) :
    (cfg.geographicNavMode = .Dynamic →
      ((|nav.targetPoint.y| > cfg.navigationLatitudeThreshold - 1 / 100000 →
         (tickGeographicMode cfg nav).geographicMode = .Free) ∧
       (¬(|nav.targetPoint.y| > cfg.navigationLatitudeThreshold - 1 / 100000) →
         (tickGeographicMode cfg nav).geographicMode = nav.geographicMode))) ∧
    (cfg.geographicNavMode ≠ .Dynamic →
      (tickGeographicMode cfg nav).geographicMode = cfg.geographicNavMode) ∧
    (nav.geographicMode ≠ .Dynamic →
      (tickGeographicMode cfg nav).geographicMode ≠ .Dynamic) := by
  refine ⟨fun hdyn => ⟨fun hy => ?_, fun hy => ?_⟩, fun hnd => ?_, fun hm => ?_⟩
  · rw [tickGeographicMode_mode, if_pos hdyn, if_pos hy]
  · rw [tickGeographicMode_mode, if_pos hdyn, if_neg hy]
  · rw [tickGeographicMode_mode, if_neg hnd]
  · rw [tickGeographicMode_mode]
    split_ifs <;> simp_all

theorem C3_amended_witness :
    (cfgC3.geographicNavMode = .Dynamic →
      ((|(Navigation.initial).targetPoint.y| >
          cfgC3.navigationLatitudeThreshold - 1 / 100000 →
         (tickGeographicMode cfgC3 Navigation.initial).geographicMode
           = .Free) ∧
       (¬(|(Navigation.initial).targetPoint.y| >
           cfgC3.navigationLatitudeThreshold - 1 / 100000) →
         (tickGeographicMode cfgC3 Navigation.initial).geographicMode
           = Navigation.initial.geographicMode))) ∧
    (cfgC3.geographicNavMode ≠ .Dynamic →
      (tickGeographicMode cfgC3 Navigation.initial).geographicMode
        = cfgC3.geographicNavMode) ∧
    (Navigation.initial.geographicMode ≠ .Dynamic →
      (tickGeographicMode cfgC3 Navigation.initial).geographicMode
        ≠ .Dynamic) :=
  C3_amended cfgC3 Navigation.initial

/-- C2: one drain step of the height queue. When the head request resolves
Valid, the target z is set to the sampled height plus resetOffset for an
absolute request, or advanced by the difference against the last sample for
a relative request with a sample present; the sample is recorded and the
head popped. An Invalid head is popped with no other state change. An
Indeterminate head leaves the queue in place (the head keeps its in-place
processing progress). -/
theorem C2_checkPanZQueue_drain (w : World) (nav : Navigation)
    (t t' : HeightRequest) (rest : List HeightRequest) (nh : ℚ)
    (hq : nav.panZQueue = t :: rest) :
    (HeightRequest.process w t = (.Valid, t') → t'.result = some nh →
      ((∀ ro, t'.resetOffset = some ro →
         checkPanZQueue w nav =
           { nav with
             targetPoint := { nav.targetPoint with z := nh + ro },
             lastPanZShift := some nh,
             panZQueue := rest }) ∧
       (t'.resetOffset = none → ∀ h0, nav.lastPanZShift = some h0 →
         checkPanZQueue w nav =
           { nav with
             targetPoint := { nav.targetPoint with z := nav.targetPoint.z + (nh - h0) },
             lastPanZShift := some nh,
             panZQueue := rest }))) ∧
    ((HeightRequest.process w t).1 = .Invalid →
      checkPanZQueue w nav = { nav with panZQueue := rest }) ∧
    ((HeightRequest.process w t).1 = .Indeterminate →
      checkPanZQueue w nav =
        { nav with panZQueue := (HeightRequest.process w t).2 :: rest }) := by
  refine ⟨fun hv hres => ⟨fun ro hro => ?_, fun hro h0 hl => ?_⟩,
          fun hinv => ?_, fun hind => ?_⟩
  · simp only [checkPanZQueue, hq, hv, hres, hro, Option.getD_some]
  · simp only [checkPanZQueue, hq, hv, hres, hro, hl, Option.getD_some]
  · simp only [checkPanZQueue, hq]
    split
    · simp_all
    · rfl
    · simp_all
  · simp only [checkPanZQueue, hq]
    split
    · rfl
    · simp_all
    · simp_all

theorem C2_checkPanZQueue_drain_witness :
    checkPanZQueue wEx navC2 =
      { navC2 with targetPoint := { navC2.targetPoint with z := nhEx + 1 },
                   lastPanZShift := some nhEx, panZQueue := [] } :=
  ((C2_checkPanZQueue_drain wEx navC2 hrEx hrEx' [] nhEx rfl).1
    rfl rfl).1 1 rfl

/-- C9: when a relative request resolves Valid while the last height sample
is unset, the drain step leaves the target point unchanged, records the
sample and pops the head. -/
theorem C9_relative_without_sample (w : World) (nav : Navigation)
    (t t' : HeightRequest) (rest : List HeightRequest) (nh : ℚ)
    (hq : nav.panZQueue = t :: rest)
    (hv : HeightRequest.process w t = (.Valid, t'))
    (hres : t'.result = some nh)
    (hrel : t'.resetOffset = none)
    (hlast : nav.lastPanZShift = none) :
    checkPanZQueue w nav =
      { nav with lastPanZShift := some nh, panZQueue := rest } ∧
    (checkPanZQueue w nav).targetPoint = nav.targetPoint := by
  have h : checkPanZQueue w nav =
      { nav with lastPanZShift := some nh, panZQueue := rest } := by
    simp only [checkPanZQueue, hq, hv, hres, hrel, hlast, Option.getD_some]
  exact ⟨h, by rw [h]⟩

theorem C9_relative_without_sample_witness :
    checkPanZQueue wEx navC9 =
      { navC9 with lastPanZShift := some nhRel, panZQueue := [] } ∧
    (checkPanZQueue wEx navC9).targetPoint = navC9.targetPoint :=
  C9_relative_without_sample wEx navC9 hrRel hrRel' [] nhRel
    rfl rfl rfl rfl rfl

/-- A drain step never lengthens the height queue. -/
theorem checkPanZQueue_length (w : World) (nav : Navigation) :
    (checkPanZQueue w nav).panZQueue.length ≤ nav.panZQueue.length := by
  unfold checkPanZQueue
  cases hq : nav.panZQueue with
  | nil => simp [hq]
  | cons t rest =>
    cases hv : (HeightRequest.process w t).1 <;> simp [hq, hv, Nat.le_succ]

/-- The geographic mode block does not touch the height queue. -/
theorem tickGeographicMode_queue (cfg : MapOptions) (nav : Navigation) :
    (tickGeographicMode cfg nav).panZQueue = nav.panZQueue := by
  unfold tickGeographicMode
  dsimp only
  split_ifs <;> rfl

/-- Through the tick prelude, the height queue is either the one the drain
step produced or the single-entry queue of a floating re-grounding. -/
theorem tickPrelude_queue (w : World) (cfg : MapOptions) (st : MapState) :
    (tickPrelude w cfg st).2.panZQueue = (checkPanZQueue w st.nav).panZQueue ∨
    (tickPrelude w cfg st).2.panZQueue.length = 1 := by
  unfold tickPrelude
  dsimp only
  rw [apply_ite Navigation.panZQueue, tickGeographicMode_queue, ite_self]
  by_cases hfl : st.pos.heightMode = HeightMode.floating
  · right
    rw [if_pos hfl]
    rfl
  · left
    rw [if_neg hfl]

/-- The motion part of the tick does not touch the height queue. -/
theorem tickMotion_queue (w : World) (cfg : MapOptions) (pos : Position)
    (nav : Navigation) (p r : V3) (out : Position × Navigation × V3 × V3)
    (h : tickMotion w cfg pos nav p r = some out) :
    out.2.1.panZQueue = nav.panZQueue := by
  unfold tickMotion at h
  cases hsrs : w.srsType <;> rw [hsrs] at h <;> dsimp only at h
  · split at h
    · exact absurd h (by simp)
    · simp only [Option.some.injEq] at h
      subst h
      rfl
  · split at h
    · exact absurd h (by simp)
    · simp only [Option.some.injEq] at h
      subst h
      rfl
  · exact absurd h (by simp)

/-- Through the middle of the tick, the height queue is either the one the
drain step produced or the single-entry queue of a floating re-grounding. -/
theorem tickMiddle_queue (w : World) (cfg : MapOptions) (st : MapState)
    (out : Position × Navigation × V3 × V3)
    (h : tickMiddle w cfg st = some out) :
    out.2.1.panZQueue = (checkPanZQueue w st.nav).panZQueue ∨
    out.2.1.panZQueue.length = 1 := by
  unfold tickMiddle at h
  dsimp only at h
  have hq := tickMotion_queue w cfg (tickPrelude w cfg st).1
    (tickPrelude w cfg st).2 st.pos.position st.pos.orientation out h
  rcases tickPrelude_queue w cfg st with hc | hc
  · left
    rw [hq, hc]
  · right
    rw [hq, hc]

/-- The end-of-tick enqueue keeps the queue within two entries. -/
theorem tickEnqueueHeight_length (p : V3) (q : List HeightRequest)
    (h : q.length ≤ 2) : (tickEnqueueHeight p q).length ≤ 2 := by
  unfold tickEnqueueHeight
  split
  · simp only [List.length_append, List.length_singleton]
    omega
  · simp only [List.length_append, List.length_singleton, List.length_dropLast]
    omega

/-- C5: the height queue never exceeds two entries. The tick, the altitude
reset, setPoint and the drain step each preserve the bound, and the
end-of-tick enqueue replaces the tail when the queue is already full. -/
theorem C5_queue_bound (w : World) (cfg : MapOptions) (st st' : MapState)
    (nav : Navigation) (pos : Position) (t p : V3) (ro : ℚ)
    (ty : NavigationType) (q : List HeightRequest) :
    (st.nav.panZQueue.length ≤ 2 → updateNavigation w cfg st = some st' →
       st'.nav.panZQueue.length ≤ 2) ∧
    ((resetPositionAltitude pos nav ro).panZQueue.length ≤ 2) ∧
    (nav.panZQueue.length ≤ 2 → (setPoint nav t ty).panZQueue.length ≤ 2) ∧
    (nav.panZQueue.length ≤ 2 →
       (checkPanZQueue w nav).panZQueue.length ≤ 2) ∧
    (q.length = 2 →
       tickEnqueueHeight p q =
         q.dropLast ++ [HeightRequest.make (vec3to2 p)]) := by
  refine ⟨fun hlen htick => ?_, ?_, fun hlen => ?_, fun hlen => ?_,
          fun hlen => ?_⟩
  · unfold updateNavigation at htick
    rw [Option.map_eq_some'] at htick
    obtain ⟨out, hout, hb⟩ := htick
    have hq : st'.nav.panZQueue =
        tickEnqueueHeight out.2.2.1 out.2.1.panZQueue := by
      rw [← hb]
    rw [hq]
    apply tickEnqueueHeight_length
    rcases tickMiddle_queue w cfg st out hout with hc | hc
    · rw [hc]
      exact le_trans (checkPanZQueue_length w st.nav) hlen
    · omega
  · simp [resetPositionAltitude]
  · unfold setPoint
    dsimp only
    split
    · simp
    · exact hlen
  · exact le_trans (checkPanZQueue_length w nav) hlen
  · unfold tickEnqueueHeight
    rw [if_neg (by omega)]

theorem C5_queue_bound_witness :
    (stEx.nav.panZQueue.length ≤ 2 → updateNavigation wEx cfgEx stEx = some stEx' →
       stEx'.nav.panZQueue.length ≤ 2) ∧
    ((resetPositionAltitude stEx.pos Navigation.initial 5).panZQueue.length ≤ 2) ∧
    (Navigation.initial.panZQueue.length ≤ 2 →
       (setPoint Navigation.initial ⟨1, 1, 1⟩ .Quick).panZQueue.length ≤ 2) ∧
    (Navigation.initial.panZQueue.length ≤ 2 →
       (checkPanZQueue wEx Navigation.initial).panZQueue.length ≤ 2) ∧
    ([hrEx, hrEx].length = 2 →
       tickEnqueueHeight ⟨2, 2, 2⟩ [hrEx, hrEx] =
         [hrEx, hrEx].dropLast ++ [HeightRequest.make (vec3to2 ⟨2, 2, 2⟩)]) :=
  C5_queue_bound wEx cfgEx stEx stEx' Navigation.initial stEx.pos
    ⟨1, 1, 1⟩ ⟨2, 2, 2⟩ 5 .Quick [hrEx, hrEx]

/-- When some corner of the list processes to Invalid, the corner loop
reports the early Invalid exit (first component none), whatever the
determined flag. -/
theorem runCorners_invalid (w : World) (cs : List CornerRequest)
    (h : ∃ c ∈ cs, (CornerRequest.process w c).1 = .Invalid) :
    ∀ det, (runCorners w cs det).1 = none := by
  induction cs with
  | nil => simp at h
  | cons c rest ih =>
    intro det
    rcases h with ⟨c0, hc0, hv0⟩
    rcases List.mem_cons.mp hc0 with rfl | hmem
    · simp [runCorners, hv0]
    · unfold runCorners
      cases hv : (CornerRequest.process w c).1 <;>
        simp [hv, ih ⟨c0, hmem, hv0⟩]

/-- When no corner processes to Invalid, the corner loop falls through and
reports whether the incoming flag survived and every corner was Valid. -/
theorem runCorners_no_invalid (w : World) (cs : List CornerRequest)
    (h : ∀ c ∈ cs, (CornerRequest.process w c).1 ≠ .Invalid) :
    ∀ det, (runCorners w cs det).1 =
      some (det && cs.all fun c => decide ((CornerRequest.process w c).1 = .Valid)) := by
  induction cs with
  | nil => simp [runCorners]
  | cons c rest ih =>
    intro det
    have hc := h c (List.mem_cons_self c rest)
    have hrest : ∀ c ∈ rest, (CornerRequest.process w c).1 ≠ .Invalid :=
      fun c hm => h c (List.mem_cons_of_mem _ hm)
    cases hv : (CornerRequest.process w c).1
    · simp [runCorners, hv, ih hrest]
    · simp [runCorners, hv, ih hrest]
    · exact absurd hv hc

/-- C1: one call of HeightRequest::process on a request with its four
corners prepared and no result yet returns Invalid when processing some
corner yields Invalid; otherwise Indeterminate when processing some corner
yields Indeterminate; otherwise it stores the bilinearly interpolated,
SRS-converted height in the result and returns Valid. -/
theorem C1_process_aggregates_corners (w : World) (hr : HeightRequest)
    (h0 : hr.result = none) (h4 : hr.corners.length = 4) :
    ((∃ c ∈ hr.corners, (CornerRequest.process w c).1 = .Invalid) →
       (HeightRequest.process w hr).1 = .Invalid ∧
       (HeightRequest.process w hr).2.result = none) ∧
    ((∀ c ∈ hr.corners, (CornerRequest.process w c).1 ≠ .Invalid) →
     (∃ c ∈ hr.corners, (CornerRequest.process w c).1 = .Indeterminate) →
       (HeightRequest.process w hr).1 = .Indeterminate ∧
       (HeightRequest.process w hr).2.result = none) ∧
    ((∀ c ∈ hr.corners, (CornerRequest.process w c).1 = .Valid) →
       (HeightRequest.process w hr).1 = .Valid ∧
       (HeightRequest.process w hr).2.result =
         some (HeightRequest.combinedHeight w hr
                 (runCorners w hr.corners true).2)) := by
  have hne : hr.corners.isEmpty = false := by
    cases hcs : hr.corners
    · rw [hcs] at h4
      simp at h4
    · simp [hcs]
  refine ⟨fun hinv => ?_, fun hni hind => ?_, fun hval => ?_⟩
  · have hrc := runCorners_invalid w hr.corners hinv true
    simp only [HeightRequest.process, h0, hne, Bool.false_eq_true, if_false,
      hrc]
    exact ⟨trivial, trivial⟩
  · have hrc := runCorners_no_invalid w hr.corners hni true
    have hall : (hr.corners.all
        fun c => decide ((CornerRequest.process w c).1 = .Valid)) = false := by
      rcases hind with ⟨c0, hc0, hv0⟩
      apply List.all_eq_false.mpr
      exact ⟨c0, hc0, by simp [hv0]⟩
    rw [hall] at hrc
    simp only [HeightRequest.process, h0, hne, Bool.false_eq_true, if_false,
      hrc, Bool.true_and]
    exact ⟨trivial, trivial⟩
  · have hni : ∀ c ∈ hr.corners, (CornerRequest.process w c).1 ≠ .Invalid :=
      fun c hm => by simp [hval c hm]
    have hrc := runCorners_no_invalid w hr.corners hni true
    have hall : (hr.corners.all
        fun c => decide ((CornerRequest.process w c).1 = .Valid)) = true := by
      apply List.all_eq_true.mpr
      intro c hm
      simp [hval c hm]
    rw [hall] at hrc
    simp only [HeightRequest.process, h0, hne, Bool.false_eq_true, if_false,
      hrc, Bool.true_and]
    exact ⟨trivial, trivial⟩

theorem C1_process_aggregates_corners_witness :
    (HeightRequest.process wEx hrEx).1 = Validity.Valid ∧
    (HeightRequest.process wEx hrEx).2.result =
      some (HeightRequest.combinedHeight wEx hrEx
              (runCorners wEx hrEx.corners true).2) :=
  (C1_process_aggregates_corners wEx hrEx rfl rfl).2.2
    (fun c hc => by
      simp only [hrEx, crEx] at hc
      simp only [List.mem_cons, List.not_mem_nil, or_false] at hc
      rcases hc with rfl | rfl | rfl | rfl <;> rfl)

/-- The geographic Azimuthal branch of pan in closed form. -/
theorem pan_azimuthal_eq (w : World) (cfg : MapOptions) (pos : Position)
    (nav : Navigation) (value : V3) (hsrs : w.srsType = .geographic)
    (hmode : nav.geographicMode = .Azimuthal) :
    pan w cfg pos nav value =
      some { (if |angularDiff pos.position.x
                (panDestinationOf w cfg pos nav value).x| < 150 then
                { nav with targetPoint := panDestinationOf w cfg pos nav value }
              else nav) with
             autoRotation := 0, type := cfg.navigationType } := by
  simp only [pan, hsrs, hmode, panDestinationOf]

/-- The geographic Free branch of pan in closed form. -/
theorem pan_free_eq (w : World) (cfg : MapOptions) (pos : Position)
    (nav : Navigation) (value : V3) (hsrs : w.srsType = .geographic)
    (hmode : nav.geographicMode = .Free) :
    pan w cfg pos nav value =
      some { (if w.geoArcDist pos.position
                (panDestinationOf w cfg pos nav value) < 150 then
                { nav with targetPoint := panDestinationOf w cfg pos nav value }
              else nav) with
             autoRotation := 0, type := cfg.navigationType } := by
  simp only [pan, hsrs, hmode, panDestinationOf]

/-- C6 amended: in a geographic navigation SRS, pan leaves the target point
unchanged when the jump measure (angular difference in Azimuthal mode,
geodesic arc distance in Free mode) to the computed destination is at least
150, and sets the target point to the destination when the measure is
strictly below 150; the auto rotation clear and the navigation type
assignment happen either way. -/
theorem C6_pan_threshold (w : World) (cfg : MapOptions) (pos : Position)
    (nav : Navigation) (value : V3) (hsrs : w.srsType = .geographic) :
    (nav.geographicMode = .Azimuthal →
      pan w cfg pos nav value ≠ none ∧
      (150 ≤ |angularDiff pos.position.x
          (panDestinationOf w cfg pos nav value).x| →
        ((pan w cfg pos nav value).getD nav).targetPoint = nav.targetPoint) ∧
      (|angularDiff pos.position.x
          (panDestinationOf w cfg pos nav value).x| < 150 →
        ((pan w cfg pos nav value).getD nav).targetPoint =
          panDestinationOf w cfg pos nav value) ∧
      ((pan w cfg pos nav value).getD nav).autoRotation = 0 ∧
      ((pan w cfg pos nav value).getD nav).type = cfg.navigationType) ∧
    (nav.geographicMode = .Free →
      pan w cfg pos nav value ≠ none ∧
      (150 ≤ w.geoArcDist pos.position
          (panDestinationOf w cfg pos nav value) →
        ((pan w cfg pos nav value).getD nav).targetPoint = nav.targetPoint) ∧
      (w.geoArcDist pos.position (panDestinationOf w cfg pos nav value)
          < 150 →
        ((pan w cfg pos nav value).getD nav).targetPoint =
          panDestinationOf w cfg pos nav value) ∧
      ((pan w cfg pos nav value).getD nav).autoRotation = 0 ∧
      ((pan w cfg pos nav value).getD nav).type = cfg.navigationType) := by
  constructor
  · intro hmode
    rw [pan_azimuthal_eq w cfg pos nav value hsrs hmode]
    by_cases hj : |angularDiff pos.position.x
        (panDestinationOf w cfg pos nav value).x| < 150
    · exact ⟨by simp, fun hge => absurd hj (not_lt.mpr hge),
        fun _ => by rw [if_pos hj]; rfl, rfl, rfl⟩
    · exact ⟨by simp, fun _ => by rw [if_neg hj]; rfl,
        fun hlt => absurd hlt hj, rfl, rfl⟩
  · intro hmode
    rw [pan_free_eq w cfg pos nav value hsrs hmode]
    by_cases hj : w.geoArcDist pos.position
        (panDestinationOf w cfg pos nav value) < 150
    · exact ⟨by simp, fun hge => absurd hj (not_lt.mpr hge),
        fun _ => by rw [if_pos hj]; rfl, rfl, rfl⟩
    · exact ⟨by simp, fun _ => by rw [if_neg hj]; rfl,
        fun hlt => absurd hlt hj, rfl, rfl⟩

/-- C6 counterexample: for the boundary pan the jump is exactly 150, which
is not greater than 150, yet the pan leaves the target point unchanged
instead of setting it to the computed destination (which differs from the
current target), refuting the claim as stated. -/
theorem C6_counterexample :
    wP.srsType = SrsType.geographic ∧
    navP.geographicMode = NavigationGeographicMode.Azimuthal ∧
    |angularDiff posP.position.x
        (panDestinationOf wP cfgP posP navP ⟨1, 0, 0⟩).x| = 150 ∧
    ¬(|angularDiff posP.position.x
        (panDestinationOf wP cfgP posP navP ⟨1, 0, 0⟩).x| > 150) ∧
    panDestinationOf wP cfgP posP navP ⟨1, 0, 0⟩ ≠ navP.targetPoint ∧
    ((pan wP cfgP posP navP ⟨1, 0, 0⟩).getD navP).targetPoint
      = navP.targetPoint := by
  have hdest : panDestinationOf wP cfgP posP navP ⟨1, 0, 0⟩ = ⟨150, 0, 0⟩ := by
    simp only [panDestinationOf, panDestination, panMove, wP, wEx, cfgP,
      cfgEx, posP, navP, Navigation.initial, rotationMatrix, mulVec, matMul,
      V3.dot]
    apply V3.ext <;> norm_num
  have hjump : |angularDiff posP.position.x
      (panDestinationOf wP cfgP posP navP ⟨1, 0, 0⟩).x| = 150 := by
    rw [hdest]
    norm_num [angularDiff, modulo, posP]
  refine ⟨rfl, rfl, hjump, by rw [hjump]; norm_num, ?_, ?_⟩
  · rw [hdest]
    intro hcontra
    have h150 := congrArg V3.x hcontra
    simp only [V3.zero_x, navP, Navigation.initial] at h150
    norm_num at h150
  · rw [pan_azimuthal_eq wP cfgP posP navP ⟨1, 0, 0⟩ rfl rfl,
        if_neg (by rw [hjump]; norm_num)]
    rfl

theorem C6_pan_threshold_witness :
    (navP.geographicMode = .Azimuthal →
      pan wP cfgP posP navP ⟨1, 0, 0⟩ ≠ none ∧
      (150 ≤ |angularDiff posP.position.x
          (panDestinationOf wP cfgP posP navP ⟨1, 0, 0⟩).x| →
        ((pan wP cfgP posP navP ⟨1, 0, 0⟩).getD navP).targetPoint
          = navP.targetPoint) ∧
      (|angularDiff posP.position.x
          (panDestinationOf wP cfgP posP navP ⟨1, 0, 0⟩).x| < 150 →
        ((pan wP cfgP posP navP ⟨1, 0, 0⟩).getD navP).targetPoint =
          panDestinationOf wP cfgP posP navP ⟨1, 0, 0⟩) ∧
      ((pan wP cfgP posP navP ⟨1, 0, 0⟩).getD navP).autoRotation = 0 ∧
      ((pan wP cfgP posP navP ⟨1, 0, 0⟩).getD navP).type
        = cfgP.navigationType) ∧
    (navP.geographicMode = .Free →
      pan wP cfgP posP navP ⟨1, 0, 0⟩ ≠ none ∧
      (150 ≤ wP.geoArcDist posP.position
          (panDestinationOf wP cfgP posP navP ⟨1, 0, 0⟩) →
        ((pan wP cfgP posP navP ⟨1, 0, 0⟩).getD navP).targetPoint
          = navP.targetPoint) ∧
      (wP.geoArcDist posP.position (panDestinationOf wP cfgP posP navP ⟨1, 0, 0⟩)
          < 150 →
        ((pan wP cfgP posP navP ⟨1, 0, 0⟩).getD navP).targetPoint =
          panDestinationOf wP cfgP posP navP ⟨1, 0, 0⟩) ∧
      ((pan wP cfgP posP navP ⟨1, 0, 0⟩).getD navP).autoRotation = 0 ∧
      ((pan wP cfgP posP navP ⟨1, 0, 0⟩).getD navP).type
        = cfgP.navigationType) :=
  C6_pan_threshold wP cfgP posP navP ⟨1, 0, 0⟩ rfl

/-- Closed form of convertPositionSubjObj in a projected navigation SRS. -/
theorem convertPositionSubjObj_projected (w : World) (pos : Position)
    (hsrs : w.srsType = .projected) :
    convertPositionSubjObj w pos = some
      { pos with
        position := w.physToNav (w.navToPhys pos.position + (if pos.type = .objective then -(positionObjectiveDistance w pos) else positionObjectiveDistance w pos) • normalize w (w.navToPhys (projDirCam w pos.orientation + pos.position) - w.navToPhys pos.position)) } := by
  simp only [convertPositionSubjObj, positionToCamera, projDirCam, hsrs,
    if_true]

/-- C8 amended: in a projected navigation SRS with mutually inverse,
translation equivariant conversions, toggling the position type and calling
convertPositionSubjObj twice is exactly the identity on pos.position; in a
geographic SRS the claim fails because the view direction is re-derived at
the displaced position (see the counterexample). -/
theorem C8_double_toggle (w : World) (pos : Position)
    (hsrs : w.srsType = .projected)
    (h1 : ∀ v, w.physToNav (w.navToPhys v) = v)
    (h2 : ∀ v, w.navToPhys (w.physToNav v) = v)
    (h3 : ∀ a v, w.navToPhys (a + v)
            = w.navToPhys a + (w.navToPhys v - w.navToPhys 0)) :
    ∀ pos1, convertPositionSubjObj w pos = some pos1 →
    ∀ pos2, convertPositionSubjObj w (togglePositionType pos1) = some pos2 →
    pos2.position = pos.position := by
  have harg : ∀ c : V3,
      w.navToPhys (projDirCam w pos.orientation + c) - w.navToPhys c
        = w.navToPhys (projDirCam w pos.orientation) - w.navToPhys 0 := by
    intro c
    rw [V3.add_comm, h3 c _]
    exact V3.add_sub_cancel_left _ _
  intro pos1 hp1 pos2 hp2
  rw [convertPositionSubjObj_projected w pos hsrs, Option.some.injEq] at hp1
  rw [convertPositionSubjObj_projected w (togglePositionType pos1) hsrs,
      Option.some.injEq] at hp2
  subst hp1
  subst hp2
  cases htype : pos.type
  case objective =>
    simp only [togglePositionType, positionObjectiveDistance, htype]
    simp only [harg]
    simp only [h2]
    conv_rhs => rw [← h1 pos.position]
    congr 1
    apply V3.ext <;>
      (simp [V3.add_x, V3.add_y, V3.add_z, V3.smul_x, V3.smul_y, V3.smul_z]
       try ring)
  case subjective =>
    simp only [togglePositionType, positionObjectiveDistance, htype]
    simp only [harg]
    simp only [h2]
    conv_rhs => rw [← h1 pos.position]
    congr 1
    apply V3.ext <;>
      (simp [V3.add_x, V3.add_y, V3.add_z, V3.smul_x, V3.smul_y, V3.smul_z]
       try ring)

/-- C8 counterexample: in the geographic SRS, even with exactly inverse
conversions (the identity), toggling the type and converting twice moves
pos.position by a whole unit, because the camera NED basis is re-derived at
the displaced position; the claim as stated (identity for every starting
Position up to floating point tolerance) fails. -/
theorem C8_counterexample :
    (∀ v, wG.physToNav (wG.navToPhys v) = v) ∧
    (∀ v, wG.navToPhys (wG.physToNav v) = v) ∧
    convertPositionSubjObj wG posG = some posG1 ∧
    convertPositionSubjObj wG (togglePositionType posG1) = some posG2 ∧
    posG2.position ≠ posG.position := by
  have hso : (PositionType.subjective = PositionType.objective) ↔ False :=
    ⟨fun h => PositionType.noConfusion h, False.elim⟩
  have hx : posG2.position.x = -1 := by
    norm_num [posG2, posG1, convertPositionSubjObj, positionToCamera,
      positionObjectiveDistance, togglePositionType, normalize, mulColumns,
      mulVec, matMul, rotationMatrix, V3.dot, V3.cross, wG, wEx, posG,
      V3.add_def, V3.smul_def, V3.sub_def, hso]
  refine ⟨fun v => rfl, fun v => rfl, rfl, rfl, fun hcontra => ?_⟩
  have hx2 := congrArg V3.x hcontra
  rw [hx] at hx2
  norm_num [posG] at hx2

/-- The projected example world satisfies the hypotheses of the amended C8
theorem; the double toggle is the identity there. -/
theorem C8_double_toggle_witness : posW2.position = stEx.pos.position :=
  C8_double_toggle wEx stEx.pos rfl (fun v => rfl) (fun v => rfl)
    (fun a v => by
      apply V3.ext <;>
        simp only [V3.add_x, V3.add_y, V3.add_z, V3.sub_x, V3.sub_y, V3.sub_z,
          V3.zero_x, V3.zero_y, V3.zero_z, wEx, id] <;> ring)
    posW1 rfl posW2 rfl

end VtsNav
